import Mathlib

/-!
Verification of the options-payoff library (options-payoff-2.py).

The source is a small pure-function numeric library over numpy arrays.
We embed it shallowly: numpy float arrays become `List ℚ`, elementwise
(vectorized) numpy operations become `List.map`, and `ValueError` raising
becomes `Except String`.  Scalar floats become `ℚ` (exact arithmetic; the
payoff formulas are plain field/order operations).  The `position : int`
parameter is modelled as `ℚ` since the code never constrains it.
-/

namespace OptionsPayoff

/-- numpy.linspace a b n: n evenly spaced samples from a to b, both
endpoints included (for n at least 2).  numpy computes step = (b-a)/(n-1);
for n = 1 it returns [a] (here the ℚ convention x/0 = 0 gives the same). -/
def linspace (a b : ℚ) (n : ℕ) : List ℚ :=
  (List.range n).map (fun i : ℕ => a + (i : ℚ) * ((b - a) / ((n : ℚ) - 1)))

/-- The spot price argument of price_grid: the Python code accepts either a
scalar or a collection (list / ndarray) of values. -/
inductive SpotPrice where
  | scalar (x : ℚ)
  | coll (xs : List ℚ)

/-- The isinstance branch of price_grid: a collection is reduced to its
arithmetic mean (np.mean), a scalar is kept as is. -/
def SpotPrice.toScalar : SpotPrice → ℚ
  | .scalar x => x
  | .coll xs => xs.sum / xs.length

/-- price_grid(spot_price, low, high, n): an array of terminal prices
around spot, np.linspace(low * spot, high * spot, n).  Source defaults are
low = 0.5, high = 1.5, n = 400. -/
def price_grid (spot_price : SpotPrice) (low high : ℚ) (n : ℕ) : List ℚ :=
  linspace (low * spot_price.toScalar) (high * spot_price.toScalar) n

/-- payoff_call(sT, strike, premium, position): call option payoff at
expiry, position * (np.maximum(sT - strike, 0) - premium), vectorized. -/
def payoff_call (sT : List ℚ) (strike premium position : ℚ) : List ℚ :=
  sT.map (fun s =>
    let intrinsic := max (s - strike) 0
    position * (intrinsic - premium))

/-- payoff_put(sT, strike, premium, position): put option payoff at
expiry, position * (np.maximum(strike - sT, 0) - premium), vectorized. -/
def payoff_put (sT : List ℚ) (strike premium position : ℚ) : List ℚ :=
  sT.map (fun s =>
    let intrinsic := max (strike - s) 0
    position * (intrinsic - premium))

/-- payoff_call_spread(sT, strikes, premiums, position).  Checks in source
order: strikes.size == 2, then strikes[0] < strikes[1]; premiums defaults
to np.zeros(2) when omitted, otherwise its size must be 2.  Then
pnl = (max(sT-K1,0) - prem_long) - (max(sT-K2,0) - prem_short), scaled by
position. -/
def payoff_call_spread (sT strikes : List ℚ) (premiums : Option (List ℚ))
    (position : ℚ) : Except String (List ℚ) :=
  match strikes with
  | [K1, K2] =>
    if K1 < K2 then
      match premiums.getD [0, 0] with
      | [prem_long, prem_short] =>
          .ok (sT.map (fun s =>
            let long_call := max (s - K1) 0 - prem_long
            let short_call := max (s - K2) 0 - prem_short
            position * (long_call - short_call)))
      | _ => .error "Premiums array must have 2 values"
    else .error "Require K1 < K2 for call spread"
  | _ => .error "Strikes array must have 2 values [K1, K2]"

/-- payoff_put_spread(sT, strikes, premiums, position).  Same validation
as the call spread; pnl = (max(K1-sT,0) - prem_long) - (max(K2-sT,0) -
prem_short), scaled by position. -/
def payoff_put_spread (sT strikes : List ℚ) (premiums : Option (List ℚ))
    (position : ℚ) : Except String (List ℚ) :=
  match strikes with
  | [K1, K2] =>
    if K1 < K2 then
      match premiums.getD [0, 0] with
      | [prem_long, prem_short] =>
          .ok (sT.map (fun s =>
            let long_put := max (K1 - s) 0 - prem_long
            let short_put := max (K2 - s) 0 - prem_short
            position * (long_put - short_put)))
      | _ => .error "Premiums array must have 2 values"
    else .error "Require K1 < K2 for put spread"
  | _ => .error "Strikes array must have 2 values [K1, K2]"

/-- payoff_double_bear(sT, strikes, premiums, position).  Checks in source
order: strikes.size == 4, then strikes[0] > strikes[1] > strikes[2] >
strikes[3]; premiums defaults to np.zeros(4) when omitted, otherwise its
size must be 4.  pnl = (long_call - short_call) + (long_put - short_put)
with calls struck at K1, K2 and puts at K3, K4, scaled by position. -/
def payoff_double_bear (sT strikes : List ℚ) (premiums : Option (List ℚ))
    (position : ℚ) : Except String (List ℚ) :=
  match strikes with
  | [K1, K2, K3, K4] =>
    if K1 > K2 ∧ K2 > K3 ∧ K3 > K4 then
      match premiums.getD [0, 0, 0, 0] with
      | [prem1, prem2, prem3, prem4] =>
          .ok (sT.map (fun s =>
            let long_call := max (s - K1) 0 - prem1
            let short_call := max (s - K2) 0 - prem2
            let long_put := max (K3 - s) 0 - prem3
            let short_put := max (K4 - s) 0 - prem4
            position * ((long_call - short_call) + (long_put - short_put))))
      | _ => .error "Premiums array must have 4 values"
    else .error "Require K1 > K2 > K3 > K4 for double bear"
  | _ => .error "Strikes array must have 4 values [K1, K2, K3, K4]"

/-- Whether an Except value is a success (no ValueError was raised). -/
def exceptOk {ε α : Type} : Except ε α → Bool
  | .ok _ => true
  | .error _ => false

/-- Modelled from the spec: a spread strike array is valid when it has
exactly 2 strictly ascending values. -/
def spreadStrikesValid (strikes : List ℚ) : Bool :=
  match strikes with
  | [K1, K2] => decide (K1 < K2)
  | _ => false

/-- Modelled from the spec: a double-bear strike array is valid when it
has exactly 4 strictly descending values. -/
def doubleBearStrikesValid (strikes : List ℚ) : Bool :=
  match strikes with
  | [K1, K2, K3, K4] => decide (K1 > K2) && decide (K2 > K3) && decide (K3 > K4)
  | _ => false

/-- Modelled from the spec: a premiums argument is valid for an n-leg
strategy when it is omitted or has exactly n values. -/
def premiumsValid (premiums : Option (List ℚ)) (n : ℕ) : Bool :=
  match premiums with
  | none => true
  | some ps => ps.length == n

/-! ## Helper lemmas -/

lemma getElem!_map_rat (f : ℚ → ℚ) (l : List ℚ) (i : ℕ) (h : i < l.length) :
    (l.map f)[i]! = f l[i]! := by
  rw [getElem!_pos (l.map f) i (by rw [List.length_map]; exact h), getElem!_pos l i h]
  rw [List.getElem_map]

lemma linspace_length (a b : ℚ) (n : ℕ) : (linspace a b n).length = n := by
  rw [linspace, List.length_map, List.length_range]

lemma linspace_getElem! (a b : ℚ) (n i : ℕ) (h : i < n) :
    (linspace a b n)[i]! = a + (i : ℚ) * ((b - a) / ((n : ℚ) - 1)) := by
  rw [linspace, getElem!_pos _ i (by rw [List.length_map, List.length_range]; exact h)]
  rw [List.getElem_map, List.getElem_range]

/-! ## Claims -/

/-- Claim C1: for every terminal price S (each grid element), strike K,
premium, and position, the call payoff is position * (max(S - K, 0) -
premium) and the put payoff is position * (max(K - S, 0) - premium). -/
theorem C1_single_leg_payoff (sT : List ℚ) (K prem pos : ℚ) (i : ℕ)
    (h : i < sT.length) :
    (payoff_call sT K prem pos)[i]! = pos * (max (sT[i]! - K) 0 - prem)
    ∧ (payoff_put sT K prem pos)[i]! = pos * (max (K - sT[i]!) 0 - prem) := by
  constructor
  · simp only [payoff_call]
    rw [getElem!_map_rat _ _ _ h]
  · simp only [payoff_put]
    rw [getElem!_map_rat _ _ _ h]

/-- Witness for C1 at sT = [105], K = 100, premium = 2, position = 1, i = 0. -/
theorem C1_witness :
    (payoff_call [105] 100 2 1)[0]! = 1 * (max (([(105 : ℚ)])[0]! - 100) 0 - 2)
    ∧ (payoff_put [105] 100 2 1)[0]! = 1 * (max (100 - ([(105 : ℚ)])[0]!) 0 - 2) :=
  C1_single_leg_payoff [105] 100 2 1 0 (by simp)

/-- Claim C2: for K1 < K2 the call-spread payoff is
position * ((max(S-K1,0)-p1) - (max(S-K2,0)-p2)) and the put-spread payoff
is position * ((max(K1-S,0)-p1) - (max(K2-S,0)-p2)) at every grid point. -/
theorem C2_spread_payoff (sT : List ℚ) (K1 K2 p1 p2 pos : ℚ) (hk : K1 < K2) :
    payoff_call_spread sT [K1, K2] (some [p1, p2]) pos
      = .ok (sT.map (fun S => pos * ((max (S - K1) 0 - p1) - (max (S - K2) 0 - p2))))
    ∧ payoff_put_spread sT [K1, K2] (some [p1, p2]) pos
      = .ok (sT.map (fun S => pos * ((max (K1 - S) 0 - p1) - (max (K2 - S) 0 - p2)))) := by
  constructor
  · simp [payoff_call_spread, hk]
  · simp [payoff_put_spread, hk]

/-- Witness for C2 at sT = [100], K1 = 90, K2 = 110, p1 = 1, p2 = 2, position = 3. -/
theorem C2_witness :
    payoff_call_spread [100] [90, 110] (some [1, 2]) 3
      = .ok ([(100 : ℚ)].map (fun S => 3 * ((max (S - 90) 0 - 1) - (max (S - 110) 0 - 2))))
    ∧ payoff_put_spread [100] [90, 110] (some [1, 2]) 3
      = .ok ([(100 : ℚ)].map (fun S => 3 * ((max (90 - S) 0 - 1) - (max (110 - S) 0 - 2)))) :=
  C2_spread_payoff [100] 90 110 1 2 3 (by norm_num)

/-- Claim C3: for strictly descending strikes K1 > K2 > K3 > K4 the
double-bear payoff is position * ((max(S-K1,0)-p1) - (max(S-K2,0)-p2) +
(max(K3-S,0)-p3) - (max(K4-S,0)-p4)); with zero premiums, position 1 and
strikes [110, 100, 90, 80] the payoff at S = 150 is -10, at S = 50 is 10,
and at S = 95 is 0. -/
theorem C3_double_bear_payoff (sT : List ℚ) (K1 K2 K3 K4 p1 p2 p3 p4 pos : ℚ)
    (h12 : K2 < K1) (h23 : K3 < K2) (h34 : K4 < K3) :
    payoff_double_bear sT [K1, K2, K3, K4] (some [p1, p2, p3, p4]) pos
      = .ok (sT.map (fun S =>
          pos * ((max (S - K1) 0 - p1) - (max (S - K2) 0 - p2)
            + (max (K3 - S) 0 - p3) - (max (K4 - S) 0 - p4))))
    ∧ payoff_double_bear [150, 50, 95] [110, 100, 90, 80] none 1 = .ok [-10, 10, 0] := by
  constructor
  · simp [payoff_double_bear, h12, h23, h34]
    intro s _
    left
    ring
  · norm_num [payoff_double_bear, max_def]

/-- Witness for C3 at sT = [95], strikes [110, 100, 90, 80], premiums
[1, 2, 3, 4], position = 2. -/
theorem C3_witness :
    payoff_double_bear [95] [110, 100, 90, 80] (some [1, 2, 3, 4]) 2
      = .ok ([(95 : ℚ)].map (fun S =>
          2 * ((max (S - 110) 0 - 1) - (max (S - 100) 0 - 2)
            + (max (90 - S) 0 - 3) - (max (80 - S) 0 - 4))))
    ∧ payoff_double_bear [150, 50, 95] [110, 100, 90, 80] none 1 = .ok [-10, 10, 0] :=
  C3_double_bear_payoff [95] 110 100 90 80 1 2 3 4 2
    (by norm_num) (by norm_num) (by norm_num)

/-- Claim C7: omitting the premiums argument gives the same result as an
all-zero premiums array of the strategy arity, for all three validated
evaluators (even before validation succeeds). -/
theorem C7_premium_default (sT strikes : List ℚ) (pos : ℚ) :
    payoff_call_spread sT strikes none pos = payoff_call_spread sT strikes (some [0, 0]) pos
    ∧ payoff_put_spread sT strikes none pos = payoff_put_spread sT strikes (some [0, 0]) pos
    ∧ payoff_double_bear sT strikes none pos
        = payoff_double_bear sT strikes (some [0, 0, 0, 0]) pos :=
  ⟨rfl, rfl, rfl⟩

/-- Claim C10: the single-leg call and put evaluators validate nothing:
they are total functions equal to the elementwise formula for every
rational strike, premium and position, including negative ones (evaluated
here at strike -3, premium -2, position -1). -/
theorem C10_no_validation :
    (∀ (sT : List ℚ) (K prem pos : ℚ),
        payoff_call sT K prem pos = sT.map (fun s => pos * (max (s - K) 0 - prem))
        ∧ payoff_put sT K prem pos = sT.map (fun s => pos * (max (K - s) 0 - prem)))
    ∧ payoff_call [5] (-3) (-2) (-1) = [-10]
    ∧ payoff_put [5] (-3) (-2) (-1) = [-2] := by
  refine ⟨fun sT K prem pos => ⟨rfl, rfl⟩, ?_, ?_⟩
  · norm_num [payoff_call, max_def]
  · norm_num [payoff_put, max_def]

/-- Claim C4: the spread and double-bear evaluators produce an error
exactly when the strikes array has the wrong arity, the strikes violate
the required strict ordering, or a supplied premiums array has the wrong
length; with valid input no error is raised.  The validity predicates on
the right-hand sides are modelled from the spec. -/
theorem C4_validation (sT strikes : List ℚ) (premiums : Option (List ℚ)) (pos : ℚ) :
    exceptOk (payoff_call_spread sT strikes premiums pos)
        = (spreadStrikesValid strikes && premiumsValid premiums 2)
    ∧ exceptOk (payoff_put_spread sT strikes premiums pos)
        = (spreadStrikesValid strikes && premiumsValid premiums 2)
    ∧ exceptOk (payoff_double_bear sT strikes premiums pos)
        = (doubleBearStrikesValid strikes && premiumsValid premiums 4) := by
  refine ⟨?_, ?_, ?_⟩
  · rcases strikes with _ | ⟨a, _ | ⟨b, _ | ⟨c, t⟩⟩⟩ <;>
      simp [payoff_call_spread, exceptOk, spreadStrikesValid, premiumsValid]
    by_cases hab : a < b
    · simp [hab]
      rcases premiums with _ | ps
      · simp [exceptOk]
      · rcases ps with _ | ⟨p, _ | ⟨q, _ | ⟨r, u⟩⟩⟩ <;> simp [exceptOk, premiumsValid]
    · simp [hab, exceptOk]
  · rcases strikes with _ | ⟨a, _ | ⟨b, _ | ⟨c, t⟩⟩⟩ <;>
      simp [payoff_put_spread, exceptOk, spreadStrikesValid, premiumsValid]
    by_cases hab : a < b
    · simp [hab]
      rcases premiums with _ | ps
      · simp [exceptOk]
      · rcases ps with _ | ⟨p, _ | ⟨q, _ | ⟨r, u⟩⟩⟩ <;> simp [exceptOk, premiumsValid]
    · simp [hab, exceptOk]
  · rcases strikes with _ | ⟨a, _ | ⟨b, _ | ⟨c, _ | ⟨d, _ | ⟨e, t⟩⟩⟩⟩⟩ <;>
      simp [payoff_double_bear, exceptOk, doubleBearStrikesValid, premiumsValid]
    by_cases hab : a > b ∧ b > c ∧ c > d
    · simp [hab, hab.1, hab.2.1, hab.2.2]
      rcases premiums with _ | ps
      · simp [exceptOk]
      · rcases ps with _ | ⟨p, _ | ⟨q, _ | ⟨r, _ | ⟨u, _ | ⟨v, w⟩⟩⟩⟩⟩ <;>
          simp [exceptOk, premiumsValid]
    · rw [if_neg hab]
      simp [exceptOk]
      intro h1 h2 h3
      exact absurd ⟨h1, h2, h3⟩ hab

/-- Counterexample to claim C5 as stated: for the put spread with strikes
K1 = 100 < K2 = 110, zero premiums and position 1, the payoff at S = 50
(below both strikes) is -10, not position * ((K2 - K1) - p1 + p2) = 10. -/
theorem C5_cex : payoff_put_spread [50] [100, 110] (some [0, 0]) 1
    ≠ .ok [(1 : ℚ) * ((110 - 100) - 0 + 0)] := by
  norm_num [payoff_put_spread, max_def]

/-- Claim C5 (amended): for every put spread with K1 < K2 the payoff at
every terminal price at or below both strikes equals
position * ((K1 - K2) - p1 + p2), the negative of the spec value: the code
longs the put at the lower strike K1 and shorts the one at K2. -/
theorem C5_put_spread_floor (sT : List ℚ) (K1 K2 p1 p2 pos : ℚ) (hk : K1 < K2)
    (hs : ∀ s ∈ sT, s ≤ K1) :
    payoff_put_spread sT [K1, K2] (some [p1, p2]) pos
      = .ok (sT.map (fun _ => pos * ((K1 - K2) - p1 + p2))) := by
  simp only [payoff_put_spread]
  rw [if_pos hk]
  refine congrArg Except.ok (List.map_congr_left ?_)
  intro s hmem
  have h1 : s ≤ K1 := hs s hmem
  rw [max_eq_left (by linarith), max_eq_left (by linarith)]
  ring

/-- Witness for the amended C5 at sT = [50, 80], K1 = 100, K2 = 110,
p1 = 3, p2 = 1, position = 2. -/
theorem C5_witness :
    payoff_put_spread [50, 80] [100, 110] (some [3, 1]) 2
      = .ok ([(50 : ℚ), 80].map (fun _ => 2 * ((100 - 110) - 3 + 1))) :=
  C5_put_spread_floor [50, 80] 100 110 3 1 2 (by norm_num) (by norm_num)

/-- Claim C6: for every call spread with K1 < K2 the payoff at every
terminal price at or above K2 equals position * ((K2 - K1) - p1 + p2),
and with zero premiums and position 1 every successful call-spread payoff
value is at most K2 - K1. -/
theorem C6_call_spread_cap (sT : List ℚ) (K1 K2 p1 p2 pos y : ℚ) (xs ys : List ℚ)
    (hk : K1 < K2) (hs : ∀ s ∈ sT, K2 ≤ s)
    (hxs : payoff_call_spread xs [K1, K2] none 1 = .ok ys) (hy : y ∈ ys) :
    payoff_call_spread sT [K1, K2] (some [p1, p2]) pos
      = .ok (sT.map (fun _ => pos * ((K2 - K1) - p1 + p2)))
    ∧ y ≤ K2 - K1 := by
  have key : ∀ s : ℚ, max (s - K1) 0 - max (s - K2) 0 ≤ K2 - K1 := by
    intro s
    rcases le_or_lt s K2 with h | h
    · have e2 : max (s - K2) 0 = 0 := max_eq_right (by linarith)
      have e1 : max (s - K1) 0 ≤ K2 - K1 := max_le (by linarith) (by linarith)
      linarith
    · rw [max_eq_left (by linarith), max_eq_left (by linarith)]
      linarith
  constructor
  · simp only [payoff_call_spread]
    rw [if_pos hk]
    refine congrArg Except.ok (List.map_congr_left ?_)
    intro s hmem
    have h2 : K2 ≤ s := hs s hmem
    rw [max_eq_left (by linarith), max_eq_left (by linarith)]
    ring
  · simp [payoff_call_spread, hk] at hxs
    rw [← hxs] at hy
    obtain ⟨s, _, rfl⟩ := List.mem_map.mp hy
    simpa using key s

/-- Witness for C6 at sT = [115, 120], K1 = 100, K2 = 110, p1 = 2, p2 = 1,
position = 1, and the cap checked on the curve for xs = [115]. -/
theorem C6_witness :
    payoff_call_spread [115, 120] [100, 110] (some [2, 1]) 1
      = .ok ([(115 : ℚ), 120].map (fun _ => 1 * ((110 - 100) - 2 + 1)))
    ∧ (10 : ℚ) ≤ 110 - 100 :=
  C6_call_spread_cap [115, 120] 100 110 2 1 1 10 [115] [10]
    (by norm_num) (by norm_num) (by norm_num [payoff_call_spread, max_def]) (by norm_num)

/-- Counterexample to claim C8 as stated: with count = 1 the grid is the
single point [low * reference] and the high endpoint
high_fraction * reference = 3 is not included, so the grid does not span
the interval inclusive of both endpoints for every count. -/
theorem C8_cex : (3 : ℚ) ∉ price_grid (SpotPrice.scalar 2) (1/2) (3/2) 1 := by
  norm_num [price_grid, linspace, SpotPrice.toScalar, List.range_succ]

/-- Claim C8 (amended): for every scalar reference and count at least 2
the grid has exactly count points, starts at low * reference, ends at
high * reference, has constant spacing (high*r - low*r)/(count - 1), and
a collection reference is first reduced to its arithmetic mean; the
generator is a total function (it raises no error). -/
theorem C8_grid (r low high : ℚ) (xs : List ℚ) (n i : ℕ) (hn : 2 ≤ n) (hi : i + 1 < n) :
    (price_grid (SpotPrice.scalar r) low high n).length = n
    ∧ (price_grid (SpotPrice.scalar r) low high n)[0]! = low * r
    ∧ (price_grid (SpotPrice.scalar r) low high n)[n - 1]! = high * r
    ∧ (price_grid (SpotPrice.scalar r) low high n)[i + 1]!
        - (price_grid (SpotPrice.scalar r) low high n)[i]!
        = (high * r - low * r) / ((n : ℚ) - 1)
    ∧ price_grid (SpotPrice.coll xs) low high n
        = price_grid (SpotPrice.scalar (xs.sum / xs.length)) low high n := by
  have hne : ((n : ℚ) - 1) ≠ 0 := by
    have h2 : (2 : ℚ) ≤ (n : ℚ) := by exact_mod_cast hn
    linarith
  have heq : price_grid (SpotPrice.scalar r) low high n = linspace (low * r) (high * r) n := rfl
  refine ⟨?_, ?_, ?_, ?_, rfl⟩
  · rw [heq, linspace_length]
  · rw [heq, linspace_getElem! _ _ _ 0 (by omega)]
    norm_num
  · rw [heq, linspace_getElem! _ _ _ (n - 1) (by omega)]
    have hcast : ((n - 1 : ℕ) : ℚ) = (n : ℚ) - 1 := by
      have h1 : (1 : ℕ) ≤ n := by omega
      push_cast [h1]
      ring
    rw [hcast]
    field_simp
  · rw [heq, linspace_getElem! _ _ _ (i + 1) hi, linspace_getElem! _ _ _ i (by omega)]
    push_cast
    ring

/-- Witness for the amended C8 at reference 2, low = 1/2, high = 3/2,
count = 2, i = 0, and collection [1, 3]. -/
theorem C8_witness :
    (price_grid (SpotPrice.scalar 2) (1/2) (3/2) 2).length = 2
    ∧ (price_grid (SpotPrice.scalar 2) (1/2) (3/2) 2)[0]! = 1/2 * 2
    ∧ (price_grid (SpotPrice.scalar 2) (1/2) (3/2) 2)[2 - 1]! = 3/2 * 2
    ∧ (price_grid (SpotPrice.scalar 2) (1/2) (3/2) 2)[0 + 1]!
        - (price_grid (SpotPrice.scalar 2) (1/2) (3/2) 2)[0]!
        = (3/2 * 2 - 1/2 * 2) / (((2 : ℕ) : ℚ) - 1)
    ∧ price_grid (SpotPrice.coll [1, 3]) (1/2) (3/2) 2
        = price_grid (SpotPrice.scalar (([1, 3] : List ℚ).sum / ([1, 3] : List ℚ).length))
            (1/2) (3/2) 2 :=
  C8_grid 2 (1/2) (3/2) [1, 3] 2 0 (by norm_num) (by norm_num)

lemma callSpread_ok_map {sT strikes : List ℚ} {prems : Option (List ℚ)} {pos : ℚ}
    {ys : List ℚ} (h : payoff_call_spread sT strikes prems pos = .ok ys) :
    ys.length = sT.length ∧ ∃ f : ℚ → ℚ, ys = sT.map f := by
  rcases strikes with _ | ⟨a, _ | ⟨b, _ | ⟨c, t⟩⟩⟩ <;>
    simp only [payoff_call_spread] at h
  · exact absurd h (by simp)
  · exact absurd h (by simp)
  · split at h
    · split at h
      · rw [Except.ok.injEq] at h
        exact ⟨by rw [← h, List.length_map], _, h.symm⟩
      · exact absurd h (by simp)
    · exact absurd h (by simp)
  · exact absurd h (by simp)

lemma putSpread_ok_map {sT strikes : List ℚ} {prems : Option (List ℚ)} {pos : ℚ}
    {ys : List ℚ} (h : payoff_put_spread sT strikes prems pos = .ok ys) :
    ys.length = sT.length ∧ ∃ f : ℚ → ℚ, ys = sT.map f := by
  rcases strikes with _ | ⟨a, _ | ⟨b, _ | ⟨c, t⟩⟩⟩ <;>
    simp only [payoff_put_spread] at h
  · exact absurd h (by simp)
  · exact absurd h (by simp)
  · split at h
    · split at h
      · rw [Except.ok.injEq] at h
        exact ⟨by rw [← h, List.length_map], _, h.symm⟩
      · exact absurd h (by simp)
    · exact absurd h (by simp)
  · exact absurd h (by simp)

lemma doubleBear_ok_map {sT strikes : List ℚ} {prems : Option (List ℚ)} {pos : ℚ}
    {ys : List ℚ} (h : payoff_double_bear sT strikes prems pos = .ok ys) :
    ys.length = sT.length ∧ ∃ f : ℚ → ℚ, ys = sT.map f := by
  rcases strikes with _ | ⟨a, _ | ⟨b, _ | ⟨c, _ | ⟨d, _ | ⟨e, t⟩⟩⟩⟩⟩ <;>
    simp only [payoff_double_bear] at h
  · exact absurd h (by simp)
  · exact absurd h (by simp)
  · exact absurd h (by simp)
  · exact absurd h (by simp)
  · split at h
    · split at h
      · rw [Except.ok.injEq] at h
        exact ⟨by rw [← h, List.length_map], _, h.symm⟩
      · exact absurd h (by simp)
    · exact absurd h (by simp)
  · exact absurd h (by simp)

/-- Claim C9: whenever a payoff evaluator succeeds, the payoff curve has
exactly the length of the terminal price grid, and it is an elementwise
map of the grid (each output element depends only on the corresponding
grid element and the fixed parameters). -/
theorem C9_curve_shape (sT : List ℚ) (K prem pos : ℚ)
    (sA strA : List ℚ) (pA : Option (List ℚ)) (posA : ℚ) (ysA : List ℚ)
    (sB strB : List ℚ) (pB : Option (List ℚ)) (posB : ℚ) (ysB : List ℚ)
    (sC strC : List ℚ) (pC : Option (List ℚ)) (posC : ℚ) (ysC : List ℚ)
    (hA : payoff_call_spread sA strA pA posA = .ok ysA)
    (hB : payoff_put_spread sB strB pB posB = .ok ysB)
    (hC : payoff_double_bear sC strC pC posC = .ok ysC) :
    ((payoff_call sT K prem pos).length = sT.length
      ∧ ∃ f : ℚ → ℚ, payoff_call sT K prem pos = sT.map f)
    ∧ ((payoff_put sT K prem pos).length = sT.length
      ∧ ∃ f : ℚ → ℚ, payoff_put sT K prem pos = sT.map f)
    ∧ (ysA.length = sA.length ∧ ∃ f : ℚ → ℚ, ysA = sA.map f)
    ∧ (ysB.length = sB.length ∧ ∃ f : ℚ → ℚ, ysB = sB.map f)
    ∧ (ysC.length = sC.length ∧ ∃ f : ℚ → ℚ, ysC = sC.map f) :=
  ⟨⟨List.length_map _ _, _, rfl⟩, ⟨List.length_map _ _, _, rfl⟩,
    callSpread_ok_map hA, putSpread_ok_map hB, doubleBear_ok_map hC⟩

/-- Witness for C9 on concrete successful evaluations of all five
strategies. -/
theorem C9_witness :
    ((payoff_call [100, 120] 100 2 1).length = ([(100 : ℚ), 120]).length
      ∧ ∃ f : ℚ → ℚ, payoff_call [100, 120] 100 2 1 = [(100 : ℚ), 120].map f)
    ∧ ((payoff_put [100, 120] 100 2 1).length = ([(100 : ℚ), 120]).length
      ∧ ∃ f : ℚ → ℚ, payoff_put [100, 120] 100 2 1 = [(100 : ℚ), 120].map f)
    ∧ (([(10 : ℚ)]).length = ([(100 : ℚ)]).length
      ∧ ∃ f : ℚ → ℚ, [(10 : ℚ)] = [(100 : ℚ)].map f)
    ∧ (([(-10 : ℚ)]).length = ([(50 : ℚ)]).length
      ∧ ∃ f : ℚ → ℚ, [(-10 : ℚ)] = [(50 : ℚ)].map f)
    ∧ (([(0 : ℚ)]).length = ([(95 : ℚ)]).length
      ∧ ∃ f : ℚ → ℚ, [(0 : ℚ)] = [(95 : ℚ)].map f) :=
  C9_curve_shape [100, 120] 100 2 1
    [100] [90, 110] none 1 [10]
    [50] [100, 110] none 1 [-10]
    [95] [110, 100, 90, 80] none 1 [0]
    (by norm_num [payoff_call_spread, max_def])
    (by norm_num [payoff_put_spread, max_def])
    (by norm_num [payoff_double_bear, max_def])

end OptionsPayoff
